import Mathlib

/-!
Verification of the hvpp VCPU core (src/src/hvpp/hvpp/vcpu.h) against its
natural-language specification.  The interrupt descriptor (`interrupt_info_t`)
and the lifecycle enumeration (`vcpu_state`) are embedded directly from the
header source.  The member-function bodies of `vcpu_t` (vcpu.cc / vcpu.inl)
are not part of the repository snapshot, so those operations are modelled
from the specification, each marked `Modelled from the spec:` in its doc
comment.
-/

namespace Hvpp

/-- Embedding of the bitfield view `vmx::interrupt_info_t` (declared in the
missing ia32/vmx.h, used by vcpu.h lines 51-61 through the fields
`flags`, `vector`, `type`, `error_code_valid`, `nmi_unblocking`, `valid`).
Each bitfield is a separate component; `info_.flags = 0` corresponds to the
all-zero record. -/
structure VmxInterruptInfo where
  vector : Nat
  type : Nat
  error_code_valid : Bool
  nmi_unblocking : Bool
  valid : Bool
deriving DecidableEq

/-- The all-zero flags word, i.e. the result of `info_.flags = 0` or of value
initialization `info_()`. -/
def VmxInterruptInfo.zero : VmxInterruptInfo :=
  ⟨0, 0, false, false, false⟩

/-- Encoding of the bitfield record into its 32-bit flags word, following the
VMX interruption-information layout (bits 0-7 vector, bits 8-10 type, bit 11
deliver-error-code, bit 12 NMI unblocking, bit 31 valid). -/
def VmxInterruptInfo.encode (i : VmxInterruptInfo) : Nat :=
  i.vector % 256 + 256 * (i.type % 8) + 2048 * i.error_code_valid.toNat
    + 4096 * i.nmi_unblocking.toNat + 2147483648 * i.valid.toNat

/-- Embedding of `hvpp::interrupt_info_t` (vcpu.h lines 18-69): the
interruption-information word, the stored error code
(`exception_error_code_t`, a 32-bit value, modelled as `Nat`), and the RIP
adjustment hint. -/
structure interrupt_info_t where
  info_ : VmxInterruptInfo
  error_code_ : Nat
  rip_adjust_ : Int
deriving DecidableEq

/-- Embedding of the private normalizing constructor (vcpu.h lines 47-64):
clear the flags word, then set vector (8-bit bitfield), type (3-bit
bitfield), `valid = true` and `error_code_valid` as requested; store the
error code and RIP adjustment.  The NMI-unblocking bit stays at the cleared
value. -/
def interrupt_info_t.base (intr_type expt_vector exception_code : Nat)
    (exception_code_valid : Bool) (rip_adjust : Int) : interrupt_info_t :=
  { info_ :=
      { VmxInterruptInfo.zero with
          vector := expt_vector % 256
          type := intr_type % 8
          valid := true
          error_code_valid := exception_code_valid }
    error_code_ := exception_code
    rip_adjust_ := rip_adjust }

/-- Embedding of the public constructor without an error-code argument
(vcpu.h lines 21-23): delegates to the normalizing constructor with error
code `0` and `exception_code_valid = false`. -/
def interrupt_info_t.noCode (intr_type expt_vector : Nat)
    (rip_adjust : Int) : interrupt_info_t :=
  interrupt_info_t.base intr_type expt_vector 0 false rip_adjust

/-- Embedding of the public constructor with an explicit error-code argument
(vcpu.h lines 25-27): delegates to the normalizing constructor with the
supplied code and `exception_code_valid = true`. -/
def interrupt_info_t.withCode (intr_type expt_vector exception_code : Nat)
    (rip_adjust : Int) : interrupt_info_t :=
  interrupt_info_t.base intr_type expt_vector exception_code true rip_adjust

/-- Embedding of the private default constructor (vcpu.h line 46): all
members value-initialized, yielding the `valid = false` "no pending event"
sentinel. -/
def interrupt_info_t.sentinel : interrupt_info_t :=
  ⟨VmxInterruptInfo.zero, 0, 0⟩

/-- Read accessor `vector()` (vcpu.h line 34). -/
def interrupt_info_t.vector (i : interrupt_info_t) : Nat :=
  i.info_.vector

/-- Read accessor `type()` (vcpu.h line 35). -/
def interrupt_info_t.type (i : interrupt_info_t) : Nat :=
  i.info_.type

/-- Read accessor `error_code()` (vcpu.h line 36). -/
def interrupt_info_t.error_code (i : interrupt_info_t) : Nat :=
  i.error_code_

/-- Read accessor `rip_adjust()` (vcpu.h line 37). -/
def interrupt_info_t.rip_adjust (i : interrupt_info_t) : Int :=
  i.rip_adjust_

/-- Read accessor `error_code_valid()` (vcpu.h line 39). -/
def interrupt_info_t.error_code_valid (i : interrupt_info_t) : Bool :=
  i.info_.error_code_valid

/-- Read accessor `nmi_unblocking()` (vcpu.h line 40). -/
def interrupt_info_t.nmi_unblocking (i : interrupt_info_t) : Bool :=
  i.info_.nmi_unblocking

/-- Read accessor `valid()` (vcpu.h line 41). -/
def interrupt_info_t.valid (i : interrupt_info_t) : Bool :=
  i.info_.valid

/-- The descriptors producible by the type's constructors.  Copy/move
construction and assignment (vcpu.h lines 29-32) are defaulted value copies
and therefore produce no new values beyond these. -/
inductive Constructed : interrupt_info_t → Prop where
  | sentinel : Constructed interrupt_info_t.sentinel
  | noCode (t v : Nat) (r : Int) : Constructed (interrupt_info_t.noCode t v r)
  | withCode (t v c : Nat) (r : Int) :
      Constructed (interrupt_info_t.withCode t v c r)

/-- Claim C4: a descriptor built by the public constructor without an
error-code argument has `error_code_valid() = false` and `error_code() = 0`;
one built by the public constructor with an explicit error code has
`error_code_valid() = true` and `error_code()` returning the supplied
value. -/
theorem ctor_error_code_validity (t v c : Nat) (r : Int) :
    (interrupt_info_t.noCode t v r).error_code_valid = false ∧
    (interrupt_info_t.noCode t v r).error_code = 0 ∧
    (interrupt_info_t.withCode t v c r).error_code_valid = true ∧
    (interrupt_info_t.withCode t v c r).error_code = c :=
  ⟨rfl, rfl, rfl, rfl⟩

/-- Claim C6: every constructible descriptor is either the fully-unset
sentinel (`valid() = false`, produced by the default constructor) or has
`valid() = true` with `error_code_valid()` consistent with which of the two
public constructors produced it. -/
theorem descriptor_invariant (i : interrupt_info_t) (h : Constructed i) :
    (i.valid = false ∧ i = interrupt_info_t.sentinel) ∨
    (i.valid = true ∧
      ((i.error_code_valid = false ∧
          ∃ t v r, i = interrupt_info_t.noCode t v r) ∨
       (i.error_code_valid = true ∧
          ∃ t v c r, i = interrupt_info_t.withCode t v c r))) := by
  cases h with
  | sentinel => exact Or.inl ⟨rfl, rfl⟩
  | noCode t v r => exact Or.inr ⟨rfl, Or.inl ⟨rfl, t, v, r, rfl⟩⟩
  | withCode t v c r => exact Or.inr ⟨rfl, Or.inr ⟨rfl, t, v, c, r, rfl⟩⟩

/-- Witness for claim C6 at the sentinel descriptor. -/
theorem descriptor_invariant_witness :
    Constructed interrupt_info_t.sentinel ∧
    ((interrupt_info_t.sentinel.valid = false ∧
        interrupt_info_t.sentinel = interrupt_info_t.sentinel) ∨
     (interrupt_info_t.sentinel.valid = true ∧
       ((interrupt_info_t.sentinel.error_code_valid = false ∧
           ∃ t v r, interrupt_info_t.sentinel = interrupt_info_t.noCode t v r) ∨
        (interrupt_info_t.sentinel.error_code_valid = true ∧
           ∃ t v c r,
             interrupt_info_t.sentinel = interrupt_info_t.withCode t v c r)))) :=
  ⟨Constructed.sentinel,
   descriptor_invariant interrupt_info_t.sentinel Constructed.sentinel⟩

/-- Claim C10: both public constructors leave the NMI-unblocking flag
cleared: the normalizing constructor zeroes the whole flags word and neither
public construction path sets that bit. -/
theorem public_ctor_nmi_unblocking_false (t v c : Nat) (r : Int) :
    (interrupt_info_t.noCode t v r).nmi_unblocking = false ∧
    (interrupt_info_t.withCode t v c r).nmi_unblocking = false :=
  ⟨rfl, rfl⟩

/-- The VMCS slots behind the accessor pairs declared on `vcpu_t`
(vcpu.h lines 137-304), one constructor per same-named accessor. -/
inductive VmcsField where
  | vcpu_id
  | ept_pointer
  | vmcs_link_pointer
  | pin_based_controls
  | processor_based_controls
  | processor_based_controls2
  | vm_entry_controls
  | vm_exit_controls
  | exception_bitmap
  | msr_bitmap
  | io_bitmap
  | pagefault_error_code_mask
  | pagefault_error_code_match
  | cr0_guest_host_mask
  | cr0_shadow
  | cr4_guest_host_mask
  | cr4_shadow
  | entry_instruction_length
  | entry_interruption_info
  | entry_interruption_error_code
  | exit_instruction_error
  | exit_instruction_info
  | exit_instruction_length
  | exit_interruption_info
  | exit_interruption_error_code
  | exit_reason
  | exit_qualification
  | exit_guest_physical_address
  | exit_guest_linear_address
  | guest_cr0
  | guest_cr3
  | guest_cr4
  | guest_dr7
  | guest_debugctl
  | guest_rsp
  | guest_rip
  | guest_rflags
  | guest_gdtr
  | guest_idtr
  | guest_cs
  | guest_ds
  | guest_es
  | guest_fs
  | guest_gs
  | guest_ss
  | guest_tr
  | guest_ldtr
  | host_cr0
  | host_cr3
  | host_cr4
  | host_rsp
  | host_rip
  | host_gdtr
  | host_idtr
  | host_cs
  | host_ds
  | host_es
  | host_fs
  | host_gs
  | host_ss
  | host_tr
deriving DecidableEq

/-- The accessor categories of spec section 4.2. -/
inductive FieldCategory where
  | control
  | entry_configuration
  | exit_information
  | guest_state
  | host_state
deriving DecidableEq

/-- Category of each accessor pair per spec section 4.2. -/
def category : VmcsField → FieldCategory
  | .vcpu_id | .ept_pointer | .vmcs_link_pointer
  | .pin_based_controls | .processor_based_controls
  | .processor_based_controls2 | .vm_entry_controls | .vm_exit_controls
  | .exception_bitmap | .msr_bitmap | .io_bitmap
  | .pagefault_error_code_mask | .pagefault_error_code_match
  | .cr0_guest_host_mask | .cr0_shadow
  | .cr4_guest_host_mask | .cr4_shadow => .control
  | .entry_instruction_length | .entry_interruption_info
  | .entry_interruption_error_code => .entry_configuration
  | .exit_instruction_error | .exit_instruction_info
  | .exit_instruction_length | .exit_interruption_info
  | .exit_interruption_error_code | .exit_reason | .exit_qualification
  | .exit_guest_physical_address | .exit_guest_linear_address =>
      .exit_information
  | .guest_cr0 | .guest_cr3 | .guest_cr4 | .guest_dr7 | .guest_debugctl
  | .guest_rsp | .guest_rip | .guest_rflags | .guest_gdtr | .guest_idtr
  | .guest_cs | .guest_ds | .guest_es | .guest_fs | .guest_gs | .guest_ss
  | .guest_tr | .guest_ldtr => .guest_state
  | .host_cr0 | .host_cr3 | .host_cr4 | .host_rsp | .host_rip
  | .host_gdtr | .host_idtr | .host_cs | .host_ds | .host_es | .host_fs
  | .host_gs | .host_ss | .host_tr => .host_state

/-- Modelled from the spec: the currently loaded control structure as a
store from VMCS slots to encoded field values.  The accessor
implementations (vcpu.inl) are missing from the repository snapshot; per
spec section 4.2 each accessor pair reads/writes one architecturally
defined slot of the currently loaded structure. -/
def Vmcs : Type :=
  VmcsField → Nat

/-- Modelled from the spec: the read half of an accessor pair. -/
def vmread (s : Vmcs) (f : VmcsField) : Nat :=
  s f

/-- Modelled from the spec: the write half of an accessor pair, updating
exactly its own slot. -/
def vmwrite (s : Vmcs) (f : VmcsField) (x : Nat) : Vmcs :=
  fun g => if g = f then x else s g

/-- The all-zero control structure, used as a concrete store. -/
def vmcs0 : Vmcs :=
  fun _ => 0

/-- Reading a slot just written returns the written value. -/
theorem vmread_vmwrite_same (s : Vmcs) (f : VmcsField) (x : Nat) :
    vmread (vmwrite s f x) f = x := by
  simp [vmread, vmwrite]

/-- Reading a slot other than the one just written sees the old store. -/
theorem vmread_vmwrite_other (s : Vmcs) (f g : VmcsField) (x : Nat)
    (h : f ≠ g) :
    vmread (vmwrite s g x) f = vmread s f := by
  simp [vmread, vmwrite, h]

/-- Claim C5: for every writable accessor pair of the control, entry
configuration, guest state and host state categories, writing a value and
immediately reading it back through the same-named accessor returns exactly
that value. -/
theorem vmcs_accessor_roundtrip (s : Vmcs) (f : VmcsField) (x : Nat)
    (h : category f ≠ FieldCategory.exit_information) :
    vmread (vmwrite s f x) f = x := by
  simp [vmread, vmwrite]

/-- Witness for claim C5 at the `guest_cr0` accessor pair. -/
theorem vmcs_accessor_roundtrip_witness :
    category VmcsField.guest_cr0 ≠ FieldCategory.exit_information ∧
    vmread (vmwrite vmcs0 VmcsField.guest_cr0 2147483699) VmcsField.guest_cr0
      = 2147483699 :=
  ⟨by decide,
   vmcs_accessor_roundtrip vmcs0 VmcsField.guest_cr0 2147483699 (by decide)⟩

/-- Embedding of `enum class vcpu_state` (vcpu.h lines 71-102). -/
inductive VcpuState where
  | off
  | initializing
  | launching
  | running
  | terminating
  | terminated
deriving DecidableEq

/-- Position of a lifecycle state along the chain
off, initializing, launching, running, terminating, terminated. -/
def rank : VcpuState → Nat
  | .off => 0
  | .initializing => 1
  | .launching => 2
  | .running => 3
  | .terminating => 4
  | .terminated => 5

/-- Modelled from the spec: the processor-local context observed by
`initialize` — the calling processor's CR0 value and its index, from which
the virtual-processor identifier is assigned. -/
structure HwContext where
  cr0 : Nat
  processor_index : Nat

/-- The point at which the hardware reports an activation failure during
`launch` (spec section 4.3: enabling VMX root operation, loading the
control structure, or first entry). -/
inductive LaunchFailPoint where
  | load_vmxon
  | load_vmcs
  | first_entry
deriving DecidableEq

/-- Modelled from the spec: the hardware's response to the activation
sequence — either success (`fail_at = none`) or a failure point together
with the instruction error code and best-available exit reason the
hardware reports. -/
structure LaunchHw where
  fail_at : Option LaunchFailPoint
  instruction_error : Nat
  reason : Nat

/-- The VCPU record: lifecycle state (`state_`, vcpu.h line 352), the owned
control structure viewed through its accessor slots (`vmcs_`, line 342),
whether virtualization-extension root operation has been entered, the
borrowed exit-handler reference (`handler_`, line 351, modelled as an
opaque identifier) and the RIP-adjustment suppression flag (line 354). -/
structure Vcpu where
  state_ : VcpuState
  vmcs_ : Vmcs
  vmx_on : Bool
  handler_ : Option Nat
  suppress_rip_adjust_ : Bool

/-- Modelled from the spec: `vcpu_t::initialize` (declared vcpu.h line 107,
body missing from the snapshot).  Callable in the `off` state; records the
handler reference, assigns a non-zero virtual-processor identifier from the
processor index, configures the guest state to reproduce the calling
processor's current state — of which the claims only interrogate CR0 — and
moves the state to `initializing`.  The remaining field configuration of
spec section 4.3 touches slots no claim reads and is not repeated here. -/
def vcpu_init (v : Vcpu) (handler : Option Nat) (hw : HwContext) :
    Option Vcpu :=
  if v.state_ = VcpuState.off then
    some { v with
            state_ := VcpuState.initializing
            handler_ := handler
            vmcs_ :=
              vmwrite
                (vmwrite v.vmcs_ VmcsField.vcpu_id
                  (hw.processor_index % 65535 + 1))
                VmcsField.guest_cr0 hw.cr0 }
  else none

/-- Modelled from the spec: `vcpu_t::launch` (declared vcpu.h line 110, body
missing from the snapshot).  Callable in the `initializing` state.  On
hardware success it passes through `launching` into `running`.  On a
hardware-reported failure at any step it captures the instruction error
code and best-available exit reason into the exit-information slots,
leaves virtualization-extension operation if it had been entered, and moves
directly to `terminated`.  The result also carries the list of states
passed through, so that "never in `running`" is expressible. -/
def launch (v : Vcpu) (hw : LaunchHw) : Option (Vcpu × List VcpuState) :=
  if v.state_ = VcpuState.initializing then
    match hw.fail_at with
    | none =>
        some ({ v with state_ := VcpuState.running, vmx_on := true },
              [VcpuState.launching, VcpuState.running])
    | some p =>
        some ({ v with
                 state_ := VcpuState.terminated
                 vmx_on := false
                 vmcs_ :=
                   vmwrite
                     (vmwrite v.vmcs_ VmcsField.exit_instruction_error
                       hw.instruction_error)
                     VmcsField.exit_reason hw.reason },
              if p = LaunchFailPoint.first_entry then
                [VcpuState.launching, VcpuState.terminated]
              else
                [VcpuState.terminated])
  else none

/-- Modelled from the spec: `vcpu_t::terminate` (declared vcpu.h line 111,
body missing from the snapshot).  Callable only while `running`; moves the
state to `terminating` and does not itself leave virtualization-extension
operation — teardown happens on the next exit-handling pass. -/
def terminate (v : Vcpu) : Option Vcpu :=
  if v.state_ = VcpuState.running then
    some { v with state_ := VcpuState.terminating }
  else none

/-- Modelled from the spec: one guest-to-host exit-handling pass of the
trampoline (spec section 4.4, body missing from the snapshot).  While
`running` it dispatches the exit and re-enters the guest; when `terminating`
has been requested it leaves virtualization-extension operation and the
trampoline's final return moves the state to `terminated`. -/
def exitDispatch (v : Vcpu) : Option Vcpu :=
  match v.state_ with
  | VcpuState.running => some v
  | VcpuState.terminating =>
      some { v with state_ := VcpuState.terminated, vmx_on := false }
  | _ => none

/-- The operations of the lifecycle, with their external inputs. -/
inductive VcpuOp where
  | op_init (handler : Option Nat) (hw : HwContext)
  | op_launch (hw : LaunchHw)
  | op_terminate
  | op_exit_dispatch

/-- One lifecycle step: apply the named operation to the VCPU, `none` when
the operation is not permitted in the current state. -/
def step (v : Vcpu) : VcpuOp → Option Vcpu
  | .op_init handler hw => vcpu_init v handler hw
  | .op_launch hw => (launch v hw).map Prod.fst
  | .op_terminate => terminate v
  | .op_exit_dispatch => exitDispatch v

/-- Vectors that architecturally always carry a hardware error code: double
fault (8), invalid TSS (10), segment not present (11), stack fault (12),
general protection (13) and page fault (14), per spec section 4.3. -/
def errorCodeVector (v : Nat) : Bool :=
  v == 8 || v == 10 || v == 11 || v == 12 || v == 13 || v == 14

/-- The software delivery types of `vmx::interrupt_type`: software
interrupt (4), privileged software exception (5), software exception (6). -/
def softwareType (t : Nat) : Bool :=
  t == 4 || t == 5 || t == 6

/-- The non-maskable-interrupt vector (2). -/
def nmi_vector : Nat := 2

/-- The non-maskable-interrupt delivery type of `vmx::interrupt_type` (2). -/
def interrupt_type_nmi : Nat := 2

/-- Replace only the error-code-valid bit of a descriptor's
interruption-information word. -/
def withErrorCodeValid (i : interrupt_info_t) (b : Bool) : interrupt_info_t :=
  { i with info_ := { i.info_ with error_code_valid := b } }

/-- Modelled from the spec: the sanitization rule "software-delivered events
never carry a hardware error code" (spec section 4.3). -/
def sanitizeSoftware (i : interrupt_info_t) : interrupt_info_t :=
  if softwareType i.type then withErrorCodeValid i false else i

/-- Modelled from the spec: the sanitization rule "the non-maskable-interrupt
vector must always carry the non-maskable-interrupt delivery type" (spec
section 4.3). -/
def sanitizeNmi (i : interrupt_info_t) : interrupt_info_t :=
  if i.vector == nmi_vector then
    { i with info_ := { i.info_ with type := interrupt_type_nmi } }
  else i

/-- Modelled from the spec: the sanitization rule that error-code-bearing
vectors "must have `error_code_valid` forced true even if the caller's
descriptor said otherwise, using a zero error code if none was supplied"
(spec section 4.3). -/
def sanitizeErrorCode (i : interrupt_info_t) : interrupt_info_t :=
  if errorCodeVector i.vector then
    { withErrorCodeValid i true with
        error_code_ := if i.error_code_valid then i.error_code_ else 0 }
  else i

/-- Modelled from the spec: the full sanitization performed inside
`vcpu_t::inject` before the hardware fields are written (vcpu.h comment at
lines 57-59; body missing from the snapshot).  The spec leaves the ordering
of the rules open (section 9); the error-code override is applied last
because the spec states that it "always wins over a permissive caller". -/
def injectSanitize (i : interrupt_info_t) : interrupt_info_t :=
  sanitizeErrorCode (sanitizeNmi (sanitizeSoftware i))

/-- Modelled from the spec: `vcpu_t::inject` (declared vcpu.h line 127, body
missing from the snapshot).  Sanitizes its by-value descriptor argument and
writes the entry-configuration interruption-information and error-code
slots for the next entry. -/
def inject (v : Vcpu) (i : interrupt_info_t) : Vcpu :=
  let s := injectSanitize i
  let m :=
    vmwrite
      (vmwrite v.vmcs_ VmcsField.entry_interruption_info s.info_.encode)
      VmcsField.entry_interruption_error_code s.error_code_
  { v with vmcs_ := m }

/-- A caller's stack frame around an `inject` call: the caller's own
descriptor variable and the VCPU being operated on.  The call passes the
descriptor by value (vcpu.h line 127), so the callee receives a copy. -/
structure CallerFrame where
  vcpu : Vcpu
  descriptor : interrupt_info_t

/-- The semantics of the statement `vcpu.inject(descriptor)` as seen from
the caller: the VCPU is updated, the caller's descriptor variable is the
copied-from original. -/
def callInject (f : CallerFrame) : CallerFrame :=
  { f with vcpu := inject f.vcpu f.descriptor }

/-- An encoded interruption-information word with the error-code-valid bit
set has bit 11 set. -/
theorem encode_error_code_valid_bit (info : VmxInterruptInfo)
    (h : info.error_code_valid = true) :
    info.encode / 2048 % 2 = 1 := by
  unfold VmxInterruptInfo.encode
  rw [h]
  have h1 : info.vector % 256 < 256 := Nat.mod_lt _ (by omega)
  have h2 : info.type % 8 < 8 := Nat.mod_lt _ (by omega)
  cases info.nmi_unblocking <;> cases info.valid <;>
    simp only [Bool.toNat_true, Bool.toNat_false] <;> omega

/-- The software-event rule changes neither vector nor stored error code,
and cannot set the error-code-valid bit. -/
theorem sanitizeSoftware_fields (i : interrupt_info_t)
    (hecv : i.error_code_valid = false) :
    (sanitizeSoftware i).vector = i.vector ∧
    (sanitizeSoftware i).error_code_valid = false := by
  unfold sanitizeSoftware
  split
  · exact ⟨rfl, rfl⟩
  · exact ⟨rfl, hecv⟩

/-- The NMI rule is the identity on descriptors whose vector is not the
NMI vector. -/
theorem sanitizeNmi_id (i : interrupt_info_t)
    (h : i.vector ≠ nmi_vector) :
    sanitizeNmi i = i := by
  unfold sanitizeNmi
  simp [h]

/-- The error-code override on a permissive caller's descriptor for an
error-code-bearing vector: validity forced, error code zero. -/
theorem sanitizeErrorCode_forced (i : interrupt_info_t)
    (hvec : errorCodeVector i.vector = true)
    (hecv : i.error_code_valid = false) :
    (sanitizeErrorCode i).info_.error_code_valid = true ∧
    (sanitizeErrorCode i).error_code_ = 0 := by
  unfold sanitizeErrorCode
  rw [if_pos hvec, if_neg (by simp [interrupt_info_t.error_code_valid] at hecv ⊢; exact hecv)]
  exact ⟨rfl, rfl⟩

/-- The full sanitization on a permissive caller's descriptor for an
error-code-bearing vector. -/
theorem injectSanitize_forced (i : interrupt_info_t)
    (hvec : errorCodeVector i.vector = true)
    (hecv : i.error_code_valid = false) :
    (injectSanitize i).info_.error_code_valid = true ∧
    (injectSanitize i).error_code_ = 0 := by
  have hv2 : i.vector ≠ nmi_vector := by
    simp only [errorCodeVector, Bool.or_eq_true, beq_iff_eq] at hvec
    unfold nmi_vector
    omega
  obtain ⟨hsv, hse⟩ := sanitizeSoftware_fields i hecv
  unfold injectSanitize
  rw [sanitizeNmi_id _ (by rw [hsv]; exact hv2)]
  exact sanitizeErrorCode_forced _ (by rw [hsv]; exact hvec) hse

/-- Claim C1: for every valid descriptor whose vector is one of the
architecturally error-code-bearing exceptions but whose `error_code_valid`
is false, `inject` writes an entry-configuration interruption-information
word whose error-code-valid bit (bit 11) is set and writes error code 0 to
the entry-configuration error-code slot. -/
theorem inject_forces_error_code (v : Vcpu) (i : interrupt_info_t)
    (hval : i.valid = true)
    (hvec : errorCodeVector i.vector = true)
    (hecv : i.error_code_valid = false) :
    vmread (inject v i).vmcs_ VmcsField.entry_interruption_info / 2048 % 2
      = 1 ∧
    vmread (inject v i).vmcs_ VmcsField.entry_interruption_error_code = 0 := by
  obtain ⟨hforced, hzero⟩ := injectSanitize_forced i hvec hecv
  have hinfo : vmread (inject v i).vmcs_ VmcsField.entry_interruption_info
      = (injectSanitize i).info_.encode := by
    show vmread
        (vmwrite
          (vmwrite v.vmcs_ VmcsField.entry_interruption_info
            (injectSanitize i).info_.encode)
          VmcsField.entry_interruption_error_code
          (injectSanitize i).error_code_)
        VmcsField.entry_interruption_info
      = (injectSanitize i).info_.encode
    rw [vmread_vmwrite_other _ _ _ _ (by decide), vmread_vmwrite_same]
  have herrc :
      vmread (inject v i).vmcs_ VmcsField.entry_interruption_error_code
        = (injectSanitize i).error_code_ := by
    show vmread
        (vmwrite
          (vmwrite v.vmcs_ VmcsField.entry_interruption_info
            (injectSanitize i).info_.encode)
          VmcsField.entry_interruption_error_code
          (injectSanitize i).error_code_)
        VmcsField.entry_interruption_error_code
      = (injectSanitize i).error_code_
    rw [vmread_vmwrite_same]
  constructor
  · rw [hinfo]
    exact encode_error_code_valid_bit _ hforced
  · rw [herrc, hzero]

/-- A VCPU in the running state with an all-zero control structure, used as
a concrete input. -/
def v_running : Vcpu :=
  ⟨VcpuState.running, vmcs0, true, none, false⟩

/-- A page-fault descriptor built without an error code, used as a concrete
input. -/
def pf_descriptor : interrupt_info_t :=
  interrupt_info_t.noCode 3 14 (-1)

/-- Witness for claim C1 at a page-fault descriptor built without an error
code. -/
theorem inject_forces_error_code_witness :
    pf_descriptor.valid = true ∧
    errorCodeVector pf_descriptor.vector = true ∧
    pf_descriptor.error_code_valid = false ∧
    (vmread (inject v_running pf_descriptor).vmcs_
        VmcsField.entry_interruption_info / 2048 % 2 = 1 ∧
     vmread (inject v_running pf_descriptor).vmcs_
        VmcsField.entry_interruption_error_code = 0) :=
  ⟨rfl, by decide, rfl,
   inject_forces_error_code v_running pf_descriptor rfl (by decide) rfl⟩

/-- Claim C9: `inject` receives its descriptor by value, so after the call
every observable field of the caller's descriptor — vector, type, error
code, error-code validity, NMI unblocking, validity and RIP adjustment — is
unchanged, whatever the sanitization wrote to the hardware entry slots. -/
theorem inject_by_value_frame (f : CallerFrame) :
    (callInject f).descriptor.vector = f.descriptor.vector ∧
    (callInject f).descriptor.type = f.descriptor.type ∧
    (callInject f).descriptor.error_code = f.descriptor.error_code ∧
    (callInject f).descriptor.error_code_valid
      = f.descriptor.error_code_valid ∧
    (callInject f).descriptor.nmi_unblocking = f.descriptor.nmi_unblocking ∧
    (callInject f).descriptor.valid = f.descriptor.valid ∧
    (callInject f).descriptor.rip_adjust = f.descriptor.rip_adjust :=
  ⟨rfl, rfl, rfl, rfl, rfl, rfl, rfl⟩

/-- Claim C2: every permitted lifecycle step moves the state forward (or
keeps it) along off, initializing, launching, running, terminating,
terminated; in the terminated state no operation is permitted; and in the
running state `initialize` may not be called. -/
theorem vcpu_state_monotone (v v' : Vcpu) (op : VcpuOp) :
    (step v op = some v' → rank v.state_ ≤ rank v'.state_) ∧
    (v.state_ = VcpuState.terminated → step v op = none) ∧
    (v.state_ = VcpuState.running →
      ∀ handler hw, step v (VcpuOp.op_init handler hw) = none) := by
  obtain ⟨st, vm, vx, hd, su⟩ := v
  refine ⟨?_, ?_, ?_⟩
  · intro h
    cases op with
    | op_init handler hw =>
        by_cases hst : st = VcpuState.off
        · subst hst
          simp only [step, vcpu_init, if_pos rfl] at h
          obtain rfl := Option.some.inj h
          exact show rank VcpuState.off ≤ rank VcpuState.initializing
            by decide
        · simp only [step, vcpu_init] at h
          rw [if_neg hst] at h
          exact Option.noConfusion h
    | op_launch hw =>
        obtain ⟨fa, ie, rs⟩ := hw
        by_cases hst : st = VcpuState.initializing
        · subst hst
          cases fa with
          | none =>
              simp only [step, launch, if_pos rfl, Option.map] at h
              obtain rfl := Option.some.inj h
              exact show rank VcpuState.initializing ≤ rank VcpuState.running
                by decide
          | some p =>
              simp only [step, launch, if_pos rfl, Option.map] at h
              obtain rfl := Option.some.inj h
              exact show rank VcpuState.initializing
                  ≤ rank VcpuState.terminated by decide
        · simp only [step, launch] at h
          rw [if_neg hst] at h
          exact Option.noConfusion h
    | op_terminate =>
        by_cases hst : st = VcpuState.running
        · subst hst
          simp only [step, terminate, if_pos rfl] at h
          obtain rfl := Option.some.inj h
          exact show rank VcpuState.running ≤ rank VcpuState.terminating
            by decide
        · simp only [step, terminate] at h
          rw [if_neg hst] at h
          exact Option.noConfusion h
    | op_exit_dispatch =>
        cases st with
        | off => exact Option.noConfusion h
        | initializing => exact Option.noConfusion h
        | launching => exact Option.noConfusion h
        | running =>
            obtain rfl := Option.some.inj h
            exact show rank VcpuState.running ≤ rank VcpuState.running
              by decide
        | terminating =>
            obtain rfl := Option.some.inj h
            exact show rank VcpuState.terminating ≤ rank VcpuState.terminated
              by decide
        | terminated => exact Option.noConfusion h
  · intro hst
    subst hst
    cases op with
    | op_init handler hw => rfl
    | op_launch hw => rfl
    | op_terminate => rfl
    | op_exit_dispatch => rfl
  · intro hst handler hw
    subst hst
    rfl

/-- A VCPU in the terminated state, used as a concrete input. -/
def v_terminated : Vcpu :=
  ⟨VcpuState.terminated, vmcs0, false, none, false⟩

/-- A VCPU in the terminating state, the result of terminating
`v_running`. -/
def v_terminating : Vcpu :=
  ⟨VcpuState.terminating, vmcs0, true, none, false⟩

/-- A processor context with a representative CR0 value, used as a concrete
input. -/
def hw0 : HwContext :=
  ⟨2147483699, 0⟩

/-- Witness for claim C2: a terminate step from running moves forward, the
terminated state admits no operation, and running admits no initialize. -/
theorem vcpu_state_monotone_witness :
    rank v_running.state_ ≤ rank v_terminating.state_ ∧
    step v_terminated VcpuOp.op_terminate = none ∧
    step v_running (VcpuOp.op_init none hw0) = none :=
  ⟨(vcpu_state_monotone v_running v_terminating VcpuOp.op_terminate).1 rfl,
   (vcpu_state_monotone v_terminated v_terminated VcpuOp.op_terminate).2.1
     rfl,
   (vcpu_state_monotone v_running v_running
     (VcpuOp.op_init none hw0)).2.2 rfl none hw0⟩

/-- Claim C3: a hardware-reported activation failure at any step of
`launch` moves the VCPU from initializing directly to terminated, never
passing through running, leaves the exit slots holding the non-zero
instruction error code and the best-available exit reason, and leaves
virtualization-extension operation. -/
theorem launch_failure_terminates (v : Vcpu) (hw : LaunchHw)
    (p : LaunchFailPoint)
    (hst : v.state_ = VcpuState.initializing)
    (hfail : hw.fail_at = some p)
    (herr : hw.instruction_error ≠ 0) :
    ∃ v' tr, launch v hw = some (v', tr) ∧
      v'.state_ = VcpuState.terminated ∧
      VcpuState.running ∉ tr ∧
      vmread v'.vmcs_ VmcsField.exit_instruction_error
        = hw.instruction_error ∧
      vmread v'.vmcs_ VmcsField.exit_instruction_error ≠ 0 ∧
      vmread v'.vmcs_ VmcsField.exit_reason = hw.reason ∧
      v'.vmx_on = false := by
  obtain ⟨fa, ie, rs⟩ := hw
  obtain ⟨st, vm, vx, hd, su⟩ := v
  have hst' : st = VcpuState.initializing := hst
  subst hst'
  have hfa : fa = some p := hfail
  subst hfa
  refine ⟨_, _, rfl, rfl, ?_, ?_, ?_, ?_, rfl⟩
  · cases p <;> decide
  · show vmread
        (vmwrite (vmwrite vm VmcsField.exit_instruction_error ie)
          VmcsField.exit_reason rs)
        VmcsField.exit_instruction_error = ie
    rw [vmread_vmwrite_other _ _ _ _ (by decide), vmread_vmwrite_same]
  · show vmread
        (vmwrite (vmwrite vm VmcsField.exit_instruction_error ie)
          VmcsField.exit_reason rs)
        VmcsField.exit_instruction_error ≠ 0
    rw [vmread_vmwrite_other _ _ _ _ (by decide), vmread_vmwrite_same]
    exact herr
  · show vmread
        (vmwrite (vmwrite vm VmcsField.exit_instruction_error ie)
          VmcsField.exit_reason rs)
        VmcsField.exit_reason = rs
    rw [vmread_vmwrite_same]

/-- A VCPU in the initializing state, used as a concrete input. -/
def v_initializing : Vcpu :=
  ⟨VcpuState.initializing, vmcs0, false, none, false⟩

/-- A hardware activation outcome failing at first entry with instruction
error 7 and exit reason 33, used as a concrete input. -/
def hw_fail : LaunchHw :=
  ⟨some LaunchFailPoint.first_entry, 7, 33⟩

/-- Witness for claim C3 at a first-entry failure with instruction error
code 7. -/
theorem launch_failure_terminates_witness :
    v_initializing.state_ = VcpuState.initializing ∧
    hw_fail.fail_at = some LaunchFailPoint.first_entry ∧
    hw_fail.instruction_error ≠ 0 ∧
    (∃ v' tr, launch v_initializing hw_fail = some (v', tr) ∧
      v'.state_ = VcpuState.terminated ∧
      VcpuState.running ∉ tr ∧
      vmread v'.vmcs_ VmcsField.exit_instruction_error
        = hw_fail.instruction_error ∧
      vmread v'.vmcs_ VmcsField.exit_instruction_error ≠ 0 ∧
      vmread v'.vmcs_ VmcsField.exit_reason = hw_fail.reason ∧
      v'.vmx_on = false) :=
  ⟨rfl, rfl, by decide,
   launch_failure_terminates v_initializing hw_fail
     LaunchFailPoint.first_entry rfl rfl (by decide)⟩

/-- Claim C7: calling `initialize` on a VCPU in the off state succeeds,
moves the state to initializing, makes the virtual-processor identifier
read back non-zero, and makes `guest_cr0` read back the calling processor's
CR0 value at call time. -/
theorem init_from_off (v : Vcpu) (handler : Option Nat) (hw : HwContext)
    (hst : v.state_ = VcpuState.off) :
    ∃ v', vcpu_init v handler hw = some v' ∧
      v'.state_ = VcpuState.initializing ∧
      vmread v'.vmcs_ VmcsField.vcpu_id ≠ 0 ∧
      vmread v'.vmcs_ VmcsField.guest_cr0 = hw.cr0 := by
  obtain ⟨st, vm, vx, hd, su⟩ := v
  have hst' : st = VcpuState.off := hst
  subst hst'
  refine ⟨_, rfl, rfl, ?_, ?_⟩
  · show vmread
        (vmwrite
          (vmwrite vm VmcsField.vcpu_id (hw.processor_index % 65535 + 1))
          VmcsField.guest_cr0 hw.cr0)
        VmcsField.vcpu_id ≠ 0
    rw [vmread_vmwrite_other _ _ _ _ (by decide), vmread_vmwrite_same]
    exact Nat.succ_ne_zero _
  · show vmread
        (vmwrite
          (vmwrite vm VmcsField.vcpu_id (hw.processor_index % 65535 + 1))
          VmcsField.guest_cr0 hw.cr0)
        VmcsField.guest_cr0 = hw.cr0
    rw [vmread_vmwrite_same]

/-- A VCPU in the off state with an all-zero control structure, used as a
concrete input. -/
def v_off : Vcpu :=
  ⟨VcpuState.off, vmcs0, false, none, false⟩

/-- Witness for claim C7 at a VCPU in the off state. -/
theorem init_from_off_witness :
    v_off.state_ = VcpuState.off ∧
    (∃ v', vcpu_init v_off none hw0 = some v' ∧
      v'.state_ = VcpuState.initializing ∧
      vmread v'.vmcs_ VmcsField.vcpu_id ≠ 0 ∧
      vmread v'.vmcs_ VmcsField.guest_cr0 = hw0.cr0) :=
  ⟨rfl, init_from_off v_off none hw0 rfl⟩

/-- Claim C8: `terminate` succeeds only from the running state; it moves
the state to terminating without leaving virtualization-extension
operation, and the next exit-handling pass — not `terminate` itself —
moves the state to terminated and leaves virtualization-extension
operation. -/
theorem terminate_arms_teardown (v v' : Vcpu)
    (h : terminate v = some v') :
    v.state_ = VcpuState.running ∧
    v'.state_ = VcpuState.terminating ∧
    v'.vmx_on = v.vmx_on ∧
    ∃ v'', exitDispatch v' = some v'' ∧
      v''.state_ = VcpuState.terminated ∧
      v''.vmx_on = false := by
  unfold terminate at h
  split at h
  · rename_i hst
    obtain rfl := Option.some.inj h
    exact ⟨hst, rfl, rfl,
      { v with state_ := VcpuState.terminated, vmx_on := false },
      rfl, rfl, rfl⟩
  · exact Option.noConfusion h

/-- Witness for claim C8 at a running VCPU. -/
theorem terminate_arms_teardown_witness :
    v_running.state_ = VcpuState.running ∧
    v_terminating.state_ = VcpuState.terminating ∧
    v_terminating.vmx_on = v_running.vmx_on ∧
    ∃ v'', exitDispatch v_terminating = some v'' ∧
      v''.state_ = VcpuState.terminated ∧
      v''.vmx_on = false :=
  terminate_arms_teardown v_running v_terminating rfl

end Hvpp
